import Mathlib

/-!
Verification of `custom_components/weather_data/sensor.py` (a Home Assistant
weather sensor platform fetching the met.no locationforecast 2.0 feed).

The embedding below translates the two stateful methods of `WeatherData`:

* `fetching_data` (sensor.py lines 185-214): HTTP fetch with error handling
  and retry scheduling.  The nondeterministic inputs (the network outcome and
  the `randrange(6)` draw used by `try_again`) are passed explicitly.
* `updating_devices` (sensor.py lines 216-346): candidate-entry filtering,
  distance scoring, stable sorting, per-device field extraction and the
  changed-value push gate.

Timestamps are modelled as `Int` seconds (Python `datetime` arithmetic on
`total_seconds()` is exact integer arithmetic here); JSON leaf values as
`JVal` (a number or a string such as a `symbol_code`).  The stable Python
`list.sort(key=lambda item: item[0])` is modelled by the stable
`List.insertionSort` over the score ordering: the output of any stable sort
with respect to this total preorder is unique, so this is the same function.
-/

/-- A scalar JSON value occurring in the met.no feed: a number (e.g. an air
temperature) or a string (e.g. a `symbol_code`). -/
inductive JVal where
  | num : Rat → JVal
  | str : String → JVal
deriving DecidableEq

/-- The `["data"]["instant"]["details"]` bag of a time entry.  Each key the
code reads (sensor.py lines 272-338) is modelled as an optional field; `none`
means the key is absent and the corresponding lookup raises `KeyError`. -/
structure InstantDetails where
  air_temperature : Option JVal
  air_pressure_at_sea_level : Option JVal
  relative_humidity : Option JVal
  dew_point_temperature : Option JVal
  wind_speed : Option JVal
  wind_speed_of_gust : Option JVal
  wind_from_direction : Option JVal
  fog_area_fraction : Option JVal
  cloud_area_fraction : Option JVal
  cloud_area_fraction_low : Option JVal
  cloud_area_fraction_medium : Option JVal
  cloud_area_fraction_high : Option JVal
deriving DecidableEq

/-- The `["data"]["next_1_hours"]["details"]` bag (sensor.py line 256, 268). -/
structure NextHoursDetails where
  precipitation_amount : Option JVal
deriving DecidableEq

/-- The `["data"]["next_1_hours"]` object.  `details` models the
`["details"]` sub-object (absent ⇒ `KeyError` at sensor.py line 256);
`summary_symbol_code` models the `["summary"]["symbol_code"]` chain of
sensor.py line 262 (absent at either step ⇒ `KeyError`). -/
structure NextHours where
  details : Option NextHoursDetails
  summary_symbol_code : Option JVal
deriving DecidableEq

/-- The `["data"]` object of a time entry.  `instant_details` models the
`["instant"]["details"]` chain of sensor.py line 255. -/
structure EntryData where
  instant_details : Option InstantDetails
  next_1_hours : Option NextHours
deriving DecidableEq

/-- One element of `self.data["properties"]["timeseries"]`.  `time` is the
parsed `time_entry["time"]` timestamp (sensor.py line 233) in seconds. -/
structure TimeEntry where
  time : Int
  data : EntryData
deriving DecidableEq

/-- The closed set of sensor types (keys of `SENSOR_TYPES`, sensor.py
lines 50-69), i.e. the possible values of `dev.type`. -/
inductive SensorType where
  | symbol
  | precipitation
  | temperature
  | windSpeed
  | windGust
  | pressure
  | windDirection
  | humidity
  | fog
  | cloudiness
  | lowClouds
  | mediumClouds
  | highClouds
  | dewpointTemperature
deriving DecidableEq

/-- A `WeatherSensor` as seen by `updating_devices`: its `type`, its mutable
`_state` (`none` is Python `None`, the initial "unknown" state, sensor.py
line 128) and the truthiness of `dev.hass` (the entity is registered with the
host, gating `async_write_ha_state()` at sensor.py line 345). -/
structure Device where
  type : SensorType
  state : Option JVal
  hass : Bool
deriving DecidableEq

/-- The `WeatherData` state that `updating_devices` reads: the configured
`_forecast` horizon in hours (sensor.py line 180) and, from the stored payload,
`["properties"]["timeseries"]` list.  `none` models a falsy `self.data`
(the initial `{}`, sensor.py lines 182, 218-219). -/
structure WeatherData where
  forecast : Int
  data : Option (List TimeEntry)
deriving DecidableEq

/-- The body of one `try`-guarded extraction attempt of the device loop
(sensor.py lines 253-338) on a single time entry: first the two guard
lookups `instant = entry["data"]["instant"]["details"]` and
`hour = entry["data"]["next_1_hours"]["details"]` (lines 255-256; a
`KeyError` in either makes the loop `continue`, i.e. yields `none`), then
the branch on `dev.type` reading the field mapped to that type (a `KeyError`
there also yields `continue`/`none`). -/
def extractFromEntry (t : SensorType) (e : TimeEntry) : Option JVal :=
  match e.data.instant_details, e.data.next_1_hours with
  | some instant, some nh =>
    match nh.details with
    | some hour =>
      match t with
      | .symbol => nh.summary_symbol_code
      | .precipitation => hour.precipitation_amount
      | .temperature => instant.air_temperature
      | .pressure => instant.air_pressure_at_sea_level
      | .humidity => instant.relative_humidity
      | .dewpointTemperature => instant.dew_point_temperature
      | .windSpeed => instant.wind_speed
      | .windGust => instant.wind_speed_of_gust
      | .windDirection => instant.wind_from_direction
      | .fog => instant.fog_area_fraction
      | .cloudiness => instant.cloud_area_fraction
      | .lowClouds => instant.cloud_area_fraction_low
      | .mediumClouds => instant.cloud_area_fraction_medium
      | .highClouds => instant.cloud_area_fraction_high
    | none => none
  | _, _ => none

/-- The distance score of sensor.py lines 240-242:
`abs((valid_to - forecast_time).total_seconds()) +
 abs((valid_from - forecast_time).total_seconds())`. -/
def distScore (forecast_time valid_from valid_to : Int) : Int :=
  |valid_to - forecast_time| + |valid_from - forecast_time|

/-- The `ordered_entries` accumulation loop of sensor.py lines 230-244:
for each time entry, `valid_from = entry.time`,
`valid_to = valid_from + timedelta(hours=1)`; entries with
`now >= valid_to` are skipped (lines 236-238), the rest are paired with
their distance score. -/
def candidateEntries (now forecast_time : Int) (timeseries : List TimeEntry) :
    List (Int × TimeEntry) :=
  timeseries.filterMap fun time_entry =>
    let valid_from := time_entry.time
    let valid_to := valid_from + 3600
    if now ≥ valid_to then none
    else some (distScore forecast_time valid_from valid_to, time_entry)

/-- The sort key ordering of `ordered_entries.sort(key=lambda item: item[0])`
(sensor.py line 246): compare pairs by their distance score. -/
def scoreLE (a b : Int × TimeEntry) : Prop := a.1 ≤ b.1

instance : DecidableRel scoreLE := fun a b => Int.decLe a.1 b.1

instance : IsTotal (Int × TimeEntry) scoreLE := ⟨fun a b => Int.le_total a.1 b.1⟩

instance : IsTrans (Int × TimeEntry) scoreLE := ⟨fun _ _ _ h h2 => Int.le_trans h h2⟩

/-- The sorted `ordered_entries` list (sensor.py lines 230-246).  The Python
`list.sort` is a stable sort by the score key; `List.insertionSort` over
`scoreLE` is stable for the same total preorder, and the output of a stable
sort is uniquely determined, so this is the same list. -/
def orderedEntries (now forecast_time : Int) (ts : List TimeEntry) :
    List (Int × TimeEntry) :=
  (candidateEntries now forecast_time ts).insertionSort scoreLE

/-- The inner `for (_, selected_time_entry) in ordered_entries` loop of one
device (sensor.py lines 251-340): `new_state` starts as `None`; the first
entry whose extraction attempt succeeds sets it and `break`s; entries whose
attempt raises `KeyError` are `continue`d past. -/
def extractNewState (t : SensorType) : List (Int × TimeEntry) → Option JVal
  | [] => none
  | p :: rest =>
    match extractFromEntry t p.2 with
    | some v => some v
    | none => extractNewState t rest

/-- The per-device tail of the loop (sensor.py lines 342-346): if
`new_state != dev._state` then `dev._state = new_state` and, if `dev.hass`
is truthy, `dev.async_write_ha_state()` is called.  Returns the updated
device and whether a host push-update was issued. -/
def updateDevice (ordered : List (Int × TimeEntry)) (dev : Device) :
    Device × Bool :=
  let new_state := extractNewState dev.type ordered
  if new_state ≠ dev.state then ({ dev with state := new_state }, dev.hass)
  else (dev, false)

/-- `WeatherData.updating_devices` (sensor.py lines 216-346): returns, for
each device in order, the device after the pass and whether a push-update
was issued for it.  A falsy `self.data` returns immediately (lines 218-219);
an empty `ordered_entries` skips the whole device loop (line 249);
`forecast_time = now + timedelta(hours=self._forecast)` (line 222). -/
def updating_devices (now : Int) (wd : WeatherData) (devices : List Device) :
    List (Device × Bool) :=
  match wd.data with
  | none => devices.map fun dev => (dev, false)
  | some ts =>
    let forecast_time := now + wd.forecast * 3600
    let ordered := orderedEntries now forecast_time ts
    if ordered.isEmpty then devices.map fun dev => (dev, false)
    else devices.map (updateDevice ordered)

/-- The parsed body of an HTTP response: `malformed` when `await resp.json()`
raises a JSON decode error (invalid JSON text), `ok d` when it parses,
carrying the `["properties"]["timeseries"]` list that becomes `self.data`
(`none` models a falsy payload). -/
inductive Payload where
  | malformed : Payload
  | ok : Option (List TimeEntry) → Payload
deriving DecidableEq

/-- The outcome of the guarded request of sensor.py lines 196-201:
`clientError` is an `aiohttp.ClientError` (this includes the
content-type-mismatch error of `resp.json()`), `timeoutError` is the
`asyncio.TimeoutError` of the 10-second `async_timeout.timeout(10)` deadline,
and `response status body` is a completed HTTP response. -/
inductive FetchOutcome where
  | clientError : FetchOutcome
  | timeoutError : FetchOutcome
  | response : Nat → Payload → FetchOutcome
deriving DecidableEq

/-- How one `fetching_data` call ends: `retry m` means `try_again` ran and
scheduled `fetching_data` again after `m * 60` seconds via
`async_call_later` (sensor.py lines 188-192); `scheduledNext` means the
success path ran (`self.data` replaced, `updating_devices` awaited, next
fetch scheduled after `60 * 60` seconds, lines 207-214); `raised` means an
exception escaped `fetching_data` uncaught. -/
inductive FetchResult where
  | retry : Nat → FetchResult
  | scheduledNext : FetchResult
  | raised : FetchResult
deriving DecidableEq

/-- The retry delay of `try_again` (sensor.py line 190):
`minutes = 15 + randrange(6)`, with `r` the `randrange(6)` draw (so `r < 6`). -/
def try_again_minutes (r : Nat) : Nat := 15 + r

/-- `WeatherData.fetching_data` (sensor.py lines 185-214) as a function of
the `randrange(6)` draw `r`, the request outcome, and the previously stored
timeseries `old`.  Returns the stored timeseries after the call and how the
call ended:

* `ClientError` / `TimeoutError` are caught at lines 203-205 → `try_again`.
* `resp.status >= HTTPStatus.BAD_REQUEST` (400) → `try_again` (lines 198-200).
* a body that fails JSON decoding: `await resp.json()` (line 201) raises a
  `json.JSONDecodeError`, which is a `ValueError` — neither an
  `asyncio.TimeoutError` nor an `aiohttp.ClientError`, so the first handler
  does not catch it; the second handler (lines 207-211) guards only the plain
  assignment `self.data = json` and catches only `ExpatError`/`IndexError`
  (leftovers of the removed `xmltodict` parser), so it cannot fire either:
  the exception escapes `fetching_data` and `self.data` keeps `old`.
* otherwise `self.data = json`, then `updating_devices` and the hourly
  reschedule (lines 208, 213-214). -/
def fetching_data (r : Nat) (outcome : FetchOutcome)
    (old : Option (List TimeEntry)) : Option (List TimeEntry) × FetchResult :=
  match outcome with
  | .clientError => (old, .retry (try_again_minutes r))
  | .timeoutError => (old, .retry (try_again_minutes r))
  | .response status body =>
    if status ≥ 400 then (old, .retry (try_again_minutes r))
    else
      match body with
      | .malformed => (old, .raised)
      | .ok d => (d, .scheduledNext)

/-- Following the words of the spec (§4.2 field-extraction mapping and data model):
an entry "contains a non-absent value" for a field type when the attribute
that the mapping assigns to that field type is present in the bag of the entry —
the `instant` details attribute for the instantaneous fields, the
`next_1_hours` details attribute for `precipitation`, and the
`next_1_hours` summary code for `symbol`.  This is the spec-side notion used
to compare against the source-derived `extractFromEntry`, which in addition
requires both guard bags to be present. -/
def specFieldPresent (t : SensorType) (e : TimeEntry) : Bool :=
  match t with
  | .symbol => (e.data.next_1_hours.bind fun nh => nh.summary_symbol_code).isSome
  | .precipitation =>
      ((e.data.next_1_hours.bind fun nh => nh.details).bind
        fun h => h.precipitation_amount).isSome
  | .temperature => (e.data.instant_details.bind fun i => i.air_temperature).isSome
  | .pressure =>
      (e.data.instant_details.bind fun i => i.air_pressure_at_sea_level).isSome
  | .humidity => (e.data.instant_details.bind fun i => i.relative_humidity).isSome
  | .dewpointTemperature =>
      (e.data.instant_details.bind fun i => i.dew_point_temperature).isSome
  | .windSpeed => (e.data.instant_details.bind fun i => i.wind_speed).isSome
  | .windGust => (e.data.instant_details.bind fun i => i.wind_speed_of_gust).isSome
  | .windDirection =>
      (e.data.instant_details.bind fun i => i.wind_from_direction).isSome
  | .fog => (e.data.instant_details.bind fun i => i.fog_area_fraction).isSome
  | .cloudiness =>
      (e.data.instant_details.bind fun i => i.cloud_area_fraction).isSome
  | .lowClouds =>
      (e.data.instant_details.bind fun i => i.cloud_area_fraction_low).isSome
  | .mediumClouds =>
      (e.data.instant_details.bind fun i => i.cloud_area_fraction_medium).isSome
  | .highClouds =>
      (e.data.instant_details.bind fun i => i.cloud_area_fraction_high).isSome

/-- Following the words of the spec (§4.1/§7 failure taxonomy): a fetch outcome is
a failure when it is a transport error, a timeout, an error status (≥ 400),
or a malformed payload. -/
def specIsFetchFailure : FetchOutcome → Bool
  | .clientError => true
  | .timeoutError => true
  | .response status body =>
    400 ≤ status ||
      (match body with
       | .malformed => true
       | .ok _ => false)

/-- Observation helper: does a `FetchResult` schedule a `try_again` retry? -/
def isRetry : FetchResult → Bool
  | .retry _ => true
  | _ => false

/-- An `instant` details bag holding only an optional air temperature (the
other keys absent), as used in the concrete test inputs below. -/
def mkInstant (temp : Option JVal) : InstantDetails :=
  ⟨temp, none, none, none, none, none, none, none, none, none, none, none⟩

/-- A time entry at timestamp `t` that passes both extraction guards and
carries an air temperature `temp`. -/
def mkFullEntry (t : Int) (temp : JVal) : TimeEntry :=
  { time := t
    data :=
      { instant_details := some (mkInstant (some temp))
        next_1_hours := some { details := some ⟨none⟩, summary_symbol_code := none } } }

/-- A time entry at timestamp 0 that passes both extraction guards but whose
bags contain no field values at all (an entry with empty detail dicts). -/
def entryEmptyBags : TimeEntry :=
  { time := 0
    data :=
      { instant_details := some (mkInstant none)
        next_1_hours := some { details := some ⟨none⟩, summary_symbol_code := none } } }

/-- A time entry at timestamp 0 that carries an air temperature of 5 in its
`instant` details but has no `next_1_hours` object at all. -/
def entryInstantOnly : TimeEntry :=
  { time := 0
    data :=
      { instant_details := some (mkInstant (some (JVal.num 5)))
        next_1_hours := none } }

/-- A `WeatherData` state with zero forecast offset whose stored timeseries
is the single entry `entryEmptyBags`. -/
def wdEmptyBags : WeatherData := { forecast := 0, data := some [entryEmptyBags] }

/-- A registered temperature sensor whose stored value is 5. -/
def devTemp5 : Device :=
  { type := SensorType.temperature, state := some (JVal.num 5), hass := true }

/-- A time entry used in the Scenario A check: valid window 10:00-11:00
(36000 s-39600 s), carrying an air temperature of 11. -/
def eA1 : TimeEntry := mkFullEntry 36000 (JVal.num 11)

/-- A time entry used in the Scenario A check: valid window 11:00-12:00
(39600 s-43200 s), carrying an air temperature of 12. -/
def eA2 : TimeEntry := mkFullEntry 39600 (JVal.num 12)

/-- A time entry one hour after `entryInstantOnly` that passes both guards
and carries an air temperature of 7. -/
def e2C2 : TimeEntry := mkFullEntry 3600 (JVal.num 7)

/-- Unfolding of membership in the candidate list built by the accumulation
loop: a scored pair is a candidate exactly for a timeseries member that has
not expired, and its score is the distance score of its one-hour window. -/
theorem mem_candidateEntries {now ft : Int} {ts : List TimeEntry}
    {p : Int × TimeEntry} (hp : p ∈ candidateEntries now ft ts) :
    p.2 ∈ ts ∧ now < p.2.time + 3600 ∧
      p.1 = distScore ft p.2.time (p.2.time + 3600) := by
  simp only [candidateEntries, List.mem_filterMap] at hp
  obtain ⟨e, he, hsome⟩ := hp
  by_cases h : now ≥ e.time + 3600
  · rw [if_pos h] at hsome
    exact absurd hsome (by simp)
  · rw [if_neg h] at hsome
    injection hsome with h2
    subst h2
    exact ⟨he, lt_of_not_ge h, rfl⟩

/-- Sorting permutes the candidate list, so membership in the sorted list
gives the same facts. -/
theorem mem_orderedEntries {now ft : Int} {ts : List TimeEntry}
    {p : Int × TimeEntry} (hp : p ∈ orderedEntries now ft ts) :
    p.2 ∈ ts ∧ now < p.2.time + 3600 ∧
      p.1 = distScore ft p.2.time (p.2.time + 3600) :=
  mem_candidateEntries ((List.mem_insertionSort scoreLE).mp hp)

/-- The per-device update keeps the device type and `hass` flag, and leaves
the stored state equal to the freshly extracted value (either it was just
written, or it was already equal). -/
theorem updateDevice_fst (o : List (Int × TimeEntry)) (d : Device) :
    (updateDevice o d).1.type = d.type ∧ (updateDevice o d).1.hass = d.hass ∧
      (updateDevice o d).1.state = extractNewState d.type o := by
  simp only [updateDevice]
  by_cases h : extractNewState d.type o ≠ d.state
  · simp [h]
  · push_neg at h
    simp [h]

/-- Running the per-device update twice against the same ordered entry list
issues no push on the second run. -/
theorem updateDevice_idem (o : List (Int × TimeEntry)) (d : Device) :
    (updateDevice o ((updateDevice o d).1)).2 = false := by
  obtain ⟨hty, hhs, hst⟩ := updateDevice_fst o d
  set d2 := (updateDevice o d).1 with hd2
  simp only [updateDevice, hty, hst]
  simp

/-- Claim C1, counterexample.  A registered temperature sensor with stored
value 5 runs an extraction pass whose single candidate entry passes both
guards but carries no value for any field (so the temperature field has no
non-absent value in any candidate, also in the sense of the spec mapping):
the sensor does NOT keep its previous value — its state is cleared to the
unknown state `none` and a host push-update IS issued. -/
theorem C1_counterexample :
    specFieldPresent SensorType.temperature entryEmptyBags = false ∧
      devTemp5.state = some (JVal.num 5) ∧
      updating_devices 0 wdEmptyBags [devTemp5] =
        [({ type := SensorType.temperature, state := none, hass := true }, true)] := by
  decide

/-- Claim C1, amended.  For every extraction pass with a non-empty sorted
candidate list, a registered sensor whose field type yields no extractable
value from any candidate entry has its stored value reset to the unknown
state `none` (the loop variable `new_state` stays `None`), and a host
push-update is issued for it exactly when its previous stored value was not
already the unknown state. -/
theorem C1_absent_field_resets (now : Int) (wd : WeatherData)
    (ts : List TimeEntry) (dev : Device) (hts : wd.data = some ts)
    (hne : (orderedEntries now (now + wd.forecast * 3600) ts).isEmpty = false)
    (hnone : extractNewState dev.type
        (orderedEntries now (now + wd.forecast * 3600) ts) = none)
    (hh : dev.hass = true) :
    updating_devices now wd [dev] =
      [({ dev with state := none }, decide (dev.state ≠ none))] := by
  simp only [updating_devices, hts, hne, Bool.false_eq_true, if_false, List.map_cons,
    List.map_nil, updateDevice, hnone]
  by_cases h : dev.state = none
  · cases dev with
    | mk ty st hs => simp_all
  · simp [h, hh, Ne.symm h]

/-- Witness for the amended C1 at the concrete counterexample input. -/
theorem C1_witness :
    updating_devices 0 wdEmptyBags [devTemp5] =
      [({ devTemp5 with state := none }, decide (devTemp5.state ≠ none))] :=
  C1_absent_field_resets 0 wdEmptyBags [entryEmptyBags] devTemp5 rfl (by decide)
    (by decide) rfl

/-- Claim C2, counterexample.  The earlier (closer) candidate entry contains
a non-absent value for the temperature field type (air temperature 5 in its
instant details, `specFieldPresent` true) but lacks the `next_1_hours`
object; extraction skips it in favor of the later entry and yields that
entry with value 7 — so an entry containing the field of the sensor CAN be
skipped in favor of a later entry. -/
theorem C2_counterexample :
    orderedEntries 0 0 [entryInstantOnly, e2C2] =
        [(3600, entryInstantOnly), (10800, e2C2)] ∧
      specFieldPresent SensorType.temperature entryInstantOnly = true ∧
      extractFromEntry SensorType.temperature entryInstantOnly = none ∧
      extractNewState SensorType.temperature
          (orderedEntries 0 0 [entryInstantOnly, e2C2]) = some (JVal.num 7) ∧
      some (JVal.num 7) ≠ some (JVal.num 5) := by
  decide

/-- Claim C2, amended.  For each sensor independently, extraction iterates
the sorted candidate entries in order and takes the value of the first entry
on which the full guarded extraction succeeds (both the instant-details bag
and the next-1-hours-details bag present, and the mapped field non-absent),
then stops; an entry on which the full guarded extraction succeeds is never
skipped in favor of a later entry.  (An entry that merely contains the
mapped field value but lacks one of the two guard bags is skipped.) -/
theorem C2_first_full_extraction (t : SensorType) (v : JVal)
    (p : Int × TimeEntry) (l1 l2 : List (Int × TimeEntry))
    (h1 : ∀ q ∈ l1, extractFromEntry t q.2 = none)
    (h2 : extractFromEntry t p.2 = some v) :
    extractNewState t (l1 ++ p :: l2) = some v := by
  induction l1 with
  | nil => simp [extractNewState, h2]
  | cons q l ih =>
    have hq := h1 q (List.mem_cons_self q l)
    rw [List.cons_append]
    simp only [extractNewState, hq]
    exact ih fun x hx => h1 x (List.mem_cons_of_mem q hx)

/-- Witness for the amended C2 at a concrete input. -/
theorem C2_witness :
    extractNewState SensorType.temperature
        ([(3600, entryInstantOnly)] ++ (10800, e2C2) :: []) = some (JVal.num 7) :=
  C2_first_full_extraction SensorType.temperature (JVal.num 7) (10800, e2C2)
    [(3600, entryInstantOnly)] [] (by decide) (by decide)

/-- Claim C3 (the claim is right, the code is wrong).  A successful HTTP
response (status 200) whose body is malformed JSON makes `fetching_data` end
with an uncaught exception (`FetchResult.raised`): `resp.json()` raises a
JSON decode error, which neither `except` clause catches, so `try_again` is
NOT invoked and the error propagates past the fetch — contradicting the
documented intent (the second handler exists precisely to route parse
failures to `try_again`, but guards only the plain assignment
`self.data = json` and catches only the exceptions of the removed XML
parser).  The stored series is nevertheless left unchanged. -/
theorem C3_parse_failure_escapes (r : Nat) (old : Option (List TimeEntry)) :
    fetching_data r (FetchOutcome.response 200 Payload.malformed) old =
      (old, FetchResult.raised) := rfl

/-- Claim C4, counterexample.  In Scenario A the distance score of the first
entry, |11:00-10:30| + |10:00-10:30| computed at target 10:30 (37800 s) for
the window 36000 s-39600 s, equals 3600 seconds, not the 1800 seconds the
claim states. -/
theorem C4_counterexample :
    distScore 37800 36000 (36000 + 3600) = 3600 ∧
      distScore 37800 36000 (36000 + 3600) ≠ 1800 := by
  decide

/-- Claim C4, amended.  Scenario A with the arithmetic corrected: with two
entries [valid_from=10:00, valid_to=11:00] and [valid_from=11:00,
valid_to=12:00], now=10:30 and forecast offset 0 (target 10:30), the first
entry scores 3600 seconds, strictly smaller than the 7200 seconds of the
second entry; the first entry sorts first and is the one selected by
extraction. -/
theorem C4_scenario_a :
    distScore 37800 36000 (36000 + 3600) = 3600 ∧
      distScore 37800 39600 (39600 + 3600) = 7200 ∧
      (3600 : Int) < 7200 ∧
      orderedEntries 37800 37800 [eA1, eA2] = [(3600, eA1), (7200, eA2)] ∧
      extractNewState SensorType.temperature
          (orderedEntries 37800 37800 [eA1, eA2]) = some (JVal.num 11) := by
  decide

/-- Claim C5 (confirmed).  For every forecast series and every current time,
every member of the sorted candidate list satisfies now < valid_to (with
valid_to = valid_from + one hour): an entry with valid_to ≤ now never
appears in the list, hence is never eligible for selection. -/
theorem C5_expired_entries_excluded (now ft : Int) (ts : List TimeEntry)
    (p : Int × TimeEntry) (hp : p ∈ orderedEntries now ft ts) :
    now < p.2.time + 3600 :=
  (mem_orderedEntries hp).2.1

/-- Witness for C5 at a concrete input. -/
theorem C5_witness :
    (0 : Int) < (3600, entryEmptyBags).2.time + 3600 :=
  C5_expired_entries_excluded 0 0 [entryEmptyBags] (3600, entryEmptyBags)
    (by decide)

/-- Claim C6 (confirmed).  The sorted candidate list is monotonically
non-decreasing in the distance score, and the sort is stable: for every
score value, the sublist of entries with that score is exactly the sublist
they formed in the unsorted candidate list (which itself preserves the
source-feed order), so ties keep their original relative order. -/
theorem C6_sort_monotone_stable (now ft : Int) (ts : List TimeEntry) :
    (orderedEntries now ft ts).Pairwise (fun a b => a.1 ≤ b.1) ∧
      ∀ d : Int,
        (orderedEntries now ft ts).filter (fun p => p.1 = d) =
          (candidateEntries now ft ts).filter (fun p => p.1 = d) := by
  constructor
  · exact List.sorted_insertionSort scoreLE (candidateEntries now ft ts)
  · intro d
    set l := candidateEntries now ft ts with hl
    set pred : Int × TimeEntry → Bool := fun p => decide (p.1 = d) with hpred
    have hall : ∀ a ∈ l.filter pred, pred a = true := fun a ha =>
      (List.mem_filter.mp ha).2
    have hcp : (l.filter pred).Pairwise scoreLE := by
      apply List.pairwise_of_forall_mem_list
      intro a ha b hb
      have ha2 : a.1 = d := by simpa [hpred] using hall a ha
      have hb2 : b.1 = d := by simpa [hpred] using hall b hb
      show a.1 ≤ b.1
      omega
    have hsub : List.Sublist (l.filter pred) (List.insertionSort scoreLE l) :=
      List.sublist_insertionSort hcp (List.filter_sublist l)
    have hsub2 : List.Sublist (l.filter pred)
        ((List.insertionSort scoreLE l).filter pred) := by
      have := List.Sublist.filter pred hsub
      rwa [List.filter_eq_self.mpr hall] at this
    have hperm : List.Perm ((List.insertionSort scoreLE l).filter pred)
        (l.filter pred) :=
      List.Perm.filter pred (List.perm_insertionSort scoreLE l)
    have hlen : (l.filter pred).length =
        ((List.insertionSort scoreLE l).filter pred).length :=
      hperm.length_eq.symm
    exact (List.Sublist.eq_of_length hsub2 hlen).symm

/-- Claim C7 (confirmed).  For registered sensors, the per-device update of
an extraction pass issues a host push-update exactly when the newly computed
value differs from the stored value (including the unknown-to-value
transition); and extraction is idempotent: re-running `updating_devices`
against the unchanged stored series, the unchanged clock and the device
states produced by a first run issues no push-update at all. -/
theorem C7_push_gate_and_idempotent (now : Int) (wd : WeatherData)
    (devices : List Device) (hh : ∀ dev ∈ devices, dev.hass = true) :
    (∀ ordered : List (Int × TimeEntry), ∀ dev ∈ devices,
        ((updateDevice ordered dev).2 = true ↔
          extractNewState dev.type ordered ≠ dev.state)) ∧
      ∀ pr ∈ updating_devices now wd
          ((updating_devices now wd devices).map Prod.fst), pr.2 = false := by
  constructor
  · intro ordered dev hdev
    have hd := hh dev hdev
    simp only [updateDevice]
    by_cases h : extractNewState dev.type ordered ≠ dev.state
    · simp [h, hd]
    · push_neg at h
      simp [h]
  · intro pr hpr
    cases hwd : wd.data with
    | none =>
      simp only [updating_devices, hwd] at hpr
      obtain ⟨d, -, rfl⟩ := List.mem_map.mp hpr
      rfl
    | some ts =>
      by_cases ho : (orderedEntries now (now + wd.forecast * 3600) ts).isEmpty = true
      · simp only [updating_devices, hwd, ho, if_true] at hpr
        obtain ⟨d, -, rfl⟩ := List.mem_map.mp hpr
        rfl
      · simp only [updating_devices, hwd, ho, if_false] at hpr
        obtain ⟨d2, hd2, rfl⟩ := List.mem_map.mp hpr
        obtain ⟨pr1, hpr1, rfl⟩ := List.mem_map.mp hd2
        obtain ⟨d, -, rfl⟩ := List.mem_map.mp hpr1
        exact updateDevice_idem _ _

/-- Witness for C7 at a concrete input. -/
theorem C7_witness :
    (updateDevice (orderedEntries 0 0 [entryEmptyBags]) devTemp5).2 = true ↔
      extractNewState devTemp5.type (orderedEntries 0 0 [entryEmptyBags]) ≠
        devTemp5.state :=
  (C7_push_gate_and_idempotent 0 wdEmptyBags [devTemp5] (by decide)).1
    (orderedEntries 0 0 [entryEmptyBags]) devTemp5 (List.mem_cons_self devTemp5 [])

/-- Claim C8, counterexample.  A malformed payload on an HTTP 200 response is
a fetch failure under the failure taxonomy of the spec, yet `fetching_data`
schedules no `try_again` retry for it (the decode error escapes instead) —
so it is not the case that EVERY fetch failure invokes `try_again`. -/
theorem C8_counterexample :
    specIsFetchFailure (FetchOutcome.response 200 Payload.malformed) = true ∧
      isRetry (fetching_data 0 (FetchOutcome.response 200 Payload.malformed) none).2
        = false := by
  decide

/-- Claim C8, amended.  Whenever a fetch fails with a transport error, the
10-second timeout, or an HTTP status ≥ 400 (for example 503), `try_again` is
invoked and schedules the retry — returning normally, never raising — after
a delay of `15 + randrange(6)` minutes: an integer number of minutes in
[15, 20] inclusive, attained by exactly one draw each, so the delay is
uniform on [15, 20] when the draw is uniform on [0, 6).  (A malformed-payload
parse failure, by contrast, bypasses `try_again`; see the C8
counterexample.) -/
theorem C8_retry_delay (r : Nat) (hr : r < 6) (old : Option (List TimeEntry))
    (s : Nat) (hs : 400 ≤ s) (body : Payload) (m : Nat)
    (hm1 : 15 ≤ m) (hm2 : m ≤ 20) :
    (fetching_data r (FetchOutcome.response s body) old).2 =
        FetchResult.retry (try_again_minutes r) ∧
      (fetching_data r FetchOutcome.clientError old).2 =
        FetchResult.retry (try_again_minutes r) ∧
      (fetching_data r FetchOutcome.timeoutError old).2 =
        FetchResult.retry (try_again_minutes r) ∧
      15 ≤ try_again_minutes r ∧ try_again_minutes r ≤ 20 ∧
      (∃! q : Nat, q < 6 ∧ try_again_minutes q = m) := by
  refine ⟨?_, rfl, rfl, ?_, ?_, ?_⟩
  · simp [fetching_data, hs]
  · simp [try_again_minutes]
  · simp only [try_again_minutes]
    omega
  · refine ⟨m - 15, ⟨by omega, ?_⟩, fun y hy => ?_⟩
    · simp only [try_again_minutes]
      omega
    · simp only [try_again_minutes] at hy
      omega

/-- Witness for the amended C8 at a concrete input (HTTP 503, draw 3). -/
theorem C8_witness :
    (fetching_data 3 (FetchOutcome.response 503 (Payload.ok none)) none).2 =
        FetchResult.retry (try_again_minutes 3) ∧
      (fetching_data 3 FetchOutcome.clientError none).2 =
        FetchResult.retry (try_again_minutes 3) ∧
      (fetching_data 3 FetchOutcome.timeoutError none).2 =
        FetchResult.retry (try_again_minutes 3) ∧
      15 ≤ try_again_minutes 3 ∧ try_again_minutes 3 ≤ 20 ∧
      (∃! q : Nat, q < 6 ∧ try_again_minutes q = 17) :=
  C8_retry_delay 3 (by decide) none 503 (by decide) (Payload.ok none) 17
    (by decide) (by decide)

/-- Claim C9 (confirmed).  On every fetch failure — transport error, timeout,
HTTP status ≥ 400, or malformed payload — the stored forecast series is left
exactly as it was before the failed fetch: stale data is retained for
continued serving (the assignment `self.data = json` is reached only on the
success path). -/
theorem C9_failure_retains_stored_series (r : Nat) (old : Option (List TimeEntry))
    (outcome : FetchOutcome) (hfail : specIsFetchFailure outcome = true) :
    (fetching_data r outcome old).1 = old := by
  cases outcome with
  | clientError => rfl
  | timeoutError => rfl
  | response s body =>
    by_cases h : 400 ≤ s
    · simp [fetching_data, h]
    · cases body with
      | malformed => simp [fetching_data, h]
      | ok d => simp [specIsFetchFailure, h] at hfail

/-- Witness for C9 at a concrete input. -/
theorem C9_witness :
    (fetching_data 0 FetchOutcome.clientError (some [entryEmptyBags])).1 =
      some [entryEmptyBags] :=
  C9_failure_retains_stored_series 0 (some [entryEmptyBags])
    FetchOutcome.clientError rfl

/-- Claim C10 (confirmed).  Every entry in the sorted candidate list carries
the distance score of a window that is exactly one hour long — valid_to is
valid_from + 3600 seconds, computed from the single feed timestamp — and
therefore valid_from < valid_to holds for every entry ever considered. -/
theorem C10_one_hour_window (now ft : Int) (ts : List TimeEntry)
    (p : Int × TimeEntry) (hp : p ∈ orderedEntries now ft ts) :
    p.1 = distScore ft p.2.time (p.2.time + 3600) ∧ p.2.time < p.2.time + 3600 :=
  ⟨(mem_orderedEntries hp).2.2, by omega⟩

/-- Witness for C10 at a concrete input. -/
theorem C10_witness :
    (3600, eA1).1 = distScore 37800 (3600, eA1).2.time ((3600, eA1).2.time + 3600) ∧
      (3600, eA1).2.time < (3600, eA1).2.time + 3600 :=
  C10_one_hour_window 37800 37800 [eA1, eA2] (3600, eA1) (by decide)
